import Mathlib

/-!
Verification of the Alchemy Chemicals quotation chatbot (repository files
`app.py`, called v1 below, and `app_v2.py`, called v2 below).

The embedding translates the deterministic core of both files:
the catalog dictionaries, the volume-discount table, the pricing functions
`calculate_quotation`, the matcher `find_best_match` (including difflib's
`get_close_matches` / `SequenceMatcher.ratio`), the extractor
`extract_all_info`, the greeting classifier `is_greeting`, and the per-turn
dialogue branch of v2.

Modelling conventions:
* Python dicts keyed by strings become association lists (`List` of
  structures with a `key` field); insertion order is preserved because the
  source iterates dicts in insertion order.
* Python ints are `Nat` (all quantities and prices in the source are
  non-negative integers); fractional money amounts are `ℚ` (the source's
  float arithmetic on these small decimal values is exact in the claims'
  range, and the spec mandates unrounded internal totals).
* Python float `0.18` is the rational `18 / 100`; `float('inf')` as an
  upper tier bound is `Option.none`.
* Code that can raise `KeyError` is modelled with `Option`: `none` is the
  uncaught exception.
* Purely cosmetic output strings (tier label, `str.title()` renderings,
  the wall-clock validity date) are omitted from the quote record; every
  numeric field of the Python result dict is present.
-/

namespace ChatBot

/-- Python `str.lower()` (ASCII case mapping suffices for the catalog). -/
def pyLower (s : String) : String := ⟨s.data.map Char.toLower⟩

/-- Python `str.strip()`: drop leading and trailing whitespace. -/
def pyStrip (s : String) : String :=
  ⟨((s.data.dropWhile Char.isWhitespace).reverse.dropWhile Char.isWhitespace).reverse⟩

/-- Python substring test `needle in hay`. -/
def strIn (needle hay : List Char) : Bool :=
  if needle.isPrefixOf hay then true else
  match hay with
  | [] => false
  | _ :: t => strIn needle t

/-- `\w` of Python `re` on the ASCII range: letters, digits, underscore. -/
def isWordChar (c : Char) : Bool := c.isAlphanum || c == '_'

/-- Longest digit run at the head of the list (the greedy `\d+`). -/
def digitRun : List Char → List Char
  | c :: rest => if c.isDigit then c :: digitRun rest else []
  | [] => []

/-- Longest whitespace run at the head of the list (the greedy `\s*`). -/
def spaceRun : List Char → List Char
  | c :: rest => if c.isWhitespace then c :: spaceRun rest else []
  | [] => []

/-- Numeric value of a digit string, as Python `int` on it. -/
def digitsToNat (l : List Char) : Nat :=
  l.foldl (fun a c => a * 10 + (c.toNat - 48)) 0

/-! ## Catalog data (identical numbers in app.py and app_v2.py) -/

structure SpecEntry where
  label : String
  base_price : Nat
  moq : Nat
  deriving DecidableEq

/-- v2 product record: carries an alias list. -/
structure ProductEntry where
  key : String
  name : String
  unit : String
  aliases : List String
  specs : List SpecEntry
  deriving DecidableEq

/-- v1 product record: no alias list. -/
structure ProductV1 where
  key : String
  name : String
  unit : String
  specs : List SpecEntry
  deriving DecidableEq

/-- `PRODUCTS` of app_v2.py. -/
def PRODUCTS_v2 : List ProductEntry :=
  [ { key := "ashwagandha", name := "Ashwagandha Extract", unit := "Withanolides",
      aliases := ["ashwaganda", "ashvagandha", "ashwagandah"],
      specs := [⟨"2.5%", 1800, 25⟩, ⟨"5%", 2800, 25⟩, ⟨"10%", 3600, 20⟩] },
    { key := "boswellia", name := "Boswellia Extract", unit := "Boswellic Acid",
      aliases := ["boswelia", "boswella"],
      specs := [⟨"65%", 2200, 25⟩, ⟨"85%", 3200, 20⟩] },
    { key := "curcumin", name := "Curcumin Extract", unit := "Purity",
      aliases := ["curcumine", "turmeric", "haldi"],
      specs := [⟨"90%", 2500, 25⟩, ⟨"95%", 3000, 25⟩, ⟨"98%", 3800, 20⟩] },
    { key := "neem", name := "Neem Extract", unit := "Azadirachtin",
      aliases := ["nim", "neam"],
      specs := [⟨"1%", 1500, 30⟩, ⟨"5%", 2600, 25⟩] },
    { key := "tulsi", name := "Tulsi Extract", unit := "Ursolic Acid",
      aliases := ["tulasi", "basil", "holy basil"],
      specs := [⟨"2%", 1700, 30⟩, ⟨"5%", 2400, 25⟩] } ]

/-- `PRODUCTS` of app.py: same numbers, no aliases. -/
def PRODUCTS_v1 : List ProductV1 :=
  [ { key := "ashwagandha", name := "Ashwagandha Extract", unit := "Withanolides",
      specs := [⟨"2.5%", 1800, 25⟩, ⟨"5%", 2800, 25⟩, ⟨"10%", 3600, 20⟩] },
    { key := "boswellia", name := "Boswellia Extract", unit := "Boswellic Acid",
      specs := [⟨"65%", 2200, 25⟩, ⟨"85%", 3200, 20⟩] },
    { key := "curcumin", name := "Curcumin Extract", unit := "Purity",
      specs := [⟨"90%", 2500, 25⟩, ⟨"95%", 3000, 25⟩, ⟨"98%", 3800, 20⟩] },
    { key := "neem", name := "Neem Extract", unit := "Azadirachtin",
      specs := [⟨"1%", 1500, 30⟩, ⟨"5%", 2600, 25⟩] },
    { key := "tulsi", name := "Tulsi Extract", unit := "Ursolic Acid",
      specs := [⟨"2%", 1700, 30⟩, ⟨"5%", 2400, 25⟩] } ]

/-- `VOLUME_DISCOUNTS` (same table in both files).  The `Option Nat` upper
bound models `float('inf')` for the unbounded top tier. -/
def VOLUME_DISCOUNTS : List ((Nat × Option Nat) × Nat) :=
  [((1, some 24), 0), ((25, some 99), 10), ((100, some 499), 15), ((500, none), 20)]

/-- The membership test `min_qty <= quantity <= max_qty` of
`get_volume_discount` (a quantity is `<= float('inf')` always). -/
def inTier (r : Nat × Option Nat) (q : Nat) : Bool :=
  decide (r.1 ≤ q) && (match r.2 with | some m => decide (q ≤ m) | none => true)

/-- `get_volume_discount` (identical in app.py and app_v2.py): the first
tier containing the quantity wins; the fallback return is 0.  The cosmetic
tier-label string of the Python pair is omitted. -/
def get_volume_discount (quantity : Nat) : Nat :=
  match VOLUME_DISCOUNTS.find? (fun t => inTier t.1 quantity) with
  | some t => t.2
  | none => 0

structure GradeEntry where
  key : String
  premium : Nat
  aliases : List String
  deriving DecidableEq

/-- `GRADE_PREMIUMS` of app_v2.py. -/
def GRADE_PREMIUMS_v2 : List GradeEntry :=
  [ ⟨"pharmaceutical", 20, ["pharma", "medical", "pharmceutical"]⟩,
    ⟨"cosmetic", 10, ["cosmetics", "beauty", "cometic", "cosmatic"]⟩,
    ⟨"food", 0, ["food grade", "edible", "dietary"]⟩ ]

/-- `GRADE_PREMIUMS` of app.py (a flat str → int dict). -/
def GRADE_PREMIUMS_v1 : List (String × Nat) :=
  [("pharmaceutical", 20), ("pharma", 20), ("cosmetic", 10), ("food", 0), ("food grade", 0)]

structure CityEntry where
  key : String
  cost : Nat
  aliases : List String
  deriving DecidableEq

/-- `DELIVERY_COSTS` of app_v2.py. -/
def DELIVERY_COSTS_v2 : List CityEntry :=
  [ ⟨"mumbai", 3500, ["bombay", "mumbay"]⟩,
    ⟨"delhi", 4200, ["new delhi", "dilli"]⟩,
    ⟨"bangalore", 4800, ["bengaluru", "banglore", "bangaluru"]⟩,
    ⟨"pune", 3200, ["poona"]⟩,
    ⟨"ujjain", 1000, ["ujain"]⟩,
    ⟨"local", 1000, ["locally", "pickup"]⟩ ]

/-- `DELIVERY_COSTS` of app.py (a flat str → int dict). -/
def DELIVERY_COSTS_v1 : List (String × Nat) :=
  [ ("mumbai", 3500), ("delhi", 4200), ("bangalore", 4800), ("bengaluru", 4800),
    ("pune", 3200), ("ujjain", 1000), ("local", 1000) ]

/-- `GST_RATE = 0.18` (the decimal literal, as an exact rational). -/
def GST_RATE : ℚ := 18 / 100

/-! ## The pricing functions `calculate_quotation` -/

/-- The numeric content of the quotation dict both `calculate_quotation`
functions return on success (display-only strings and the wall-clock
validity date omitted). -/
structure Quote where
  base_price : Nat
  moq : Nat
  quantity : Nat
  subtotal : Nat
  volume_discount_pct : Nat
  volume_discount_amt : ℚ
  grade_premium_pct : Nat
  grade_premium_amt : ℚ
  delivery_cost : Nat
  subtotal_before_gst : ℚ
  gst_amount : ℚ
  total : ℚ
  deriving DecidableEq

/-- `calculate_quotation`'s two possible returns: the
`{"error": f"Minimum order quantity is {moq}kg for this product"}` dict,
whose message is determined by the MOQ it carries, or the quote dict. -/
inductive QuoteResult
  | belowMoq (moq : Nat)
  | quote (q : Quote)
  deriving DecidableEq

/-- v2 spec lookup `PRODUCTS[product]["specifications"][specification]`;
`none` is the `KeyError`. -/
def lookupSpec_v2 (product specification : String) : Option SpecEntry :=
  match PRODUCTS_v2.find? (fun e => e.key == product) with
  | some e => e.specs.find? (fun se => se.label == specification)
  | none => none

/-- v1 spec lookup (identical numbers, alias-free records). -/
def lookupSpec_v1 (product specification : String) : Option SpecEntry :=
  match PRODUCTS_v1.find? (fun e => e.key == product) with
  | some e => e.specs.find? (fun se => se.label == specification)
  | none => none

/-- `calculate_quotation` of app_v2.py (lines 376-438).  Grade and city are
looked up by direct indexing (`GRADE_PREMIUMS[grade]["premium"]`,
`DELIVERY_COSTS[city]["cost"]`), so an unknown grade or city is a
`KeyError`, i.e. `none`.  The MOQ check precedes both lookups. -/
def calculate_quotation_v2 (product specification : String) (quantity : Nat)
    (grade city : String) : Option QuoteResult :=
  match lookupSpec_v2 product specification with
  | none => none
  | some si =>
    if quantity < si.moq then some (.belowMoq si.moq)
    else
      let subtotal : Nat := si.base_price * quantity
      let volume_discount_pct := get_volume_discount quantity
      let volume_discount_amt : ℚ := (subtotal : ℚ) * ((volume_discount_pct : ℚ) / 100)
      match GRADE_PREMIUMS_v2.find? (fun g => g.key == grade) with
      | none => none
      | some ge =>
        let grade_premium_amt : ℚ := (subtotal : ℚ) * ((ge.premium : ℚ) / 100)
        match DELIVERY_COSTS_v2.find? (fun ce => ce.key == city) with
        | none => none
        | some ce =>
          let subtotal_before_gst : ℚ :=
            (subtotal : ℚ) - volume_discount_amt + grade_premium_amt + (ce.cost : ℚ)
          let gst_amount : ℚ := subtotal_before_gst * GST_RATE
          some (.quote
            { base_price := si.base_price, moq := si.moq, quantity := quantity,
              subtotal := subtotal,
              volume_discount_pct := volume_discount_pct,
              volume_discount_amt := volume_discount_amt,
              grade_premium_pct := ge.premium,
              grade_premium_amt := grade_premium_amt,
              delivery_cost := ce.cost,
              subtotal_before_gst := subtotal_before_gst,
              gst_amount := gst_amount,
              total := subtotal_before_gst + gst_amount })

/-- `calculate_quotation` of app.py (lines 184-241).  Grade and city use
`dict.get(key.lower(), 0)`, so unknown values fall back to 0 instead of
raising; only the product/specification lookup can raise. -/
def calculate_quotation_v1 (product specification : String) (quantity : Nat)
    (grade city : String) : Option QuoteResult :=
  match lookupSpec_v1 product specification with
  | none => none
  | some si =>
    if quantity < si.moq then some (.belowMoq si.moq)
    else
      let subtotal : Nat := si.base_price * quantity
      let volume_discount_pct := get_volume_discount quantity
      let volume_discount_amt : ℚ := (subtotal : ℚ) * ((volume_discount_pct : ℚ) / 100)
      let grade_premium_pct : Nat :=
        ((GRADE_PREMIUMS_v1.find? (fun g => g.1 == pyLower grade)).map Prod.snd).getD 0
      let grade_premium_amt : ℚ := (subtotal : ℚ) * ((grade_premium_pct : ℚ) / 100)
      let delivery_cost : Nat :=
        ((DELIVERY_COSTS_v1.find? (fun cc => cc.1 == pyLower city)).map Prod.snd).getD 0
      let subtotal_before_gst : ℚ :=
        (subtotal : ℚ) - volume_discount_amt + grade_premium_amt + (delivery_cost : ℚ)
      let gst_amount : ℚ := subtotal_before_gst * GST_RATE
      some (.quote
        { base_price := si.base_price, moq := si.moq, quantity := quantity,
          subtotal := subtotal,
          volume_discount_pct := volume_discount_pct,
          volume_discount_amt := volume_discount_amt,
          grade_premium_pct := grade_premium_pct,
          grade_premium_amt := grade_premium_amt,
          delivery_cost := delivery_cost,
          subtotal_before_gst := subtotal_before_gst,
          gst_amount := gst_amount,
          total := subtotal_before_gst + gst_amount })

/-! ## The matcher `find_best_match` and difflib

`find_best_match(text, options, check_aliases=True)` (app_v2.py lines
115-149) lower-cases and strips the text, then tries: containment against
the canonical keys, containment against the aliases, and finally
`difflib.get_close_matches(text_lower, keys ++ aliases, n=1, cutoff=0.7)`
mapped back to the owning key.  The only call site passes
`check_aliases=True`, which is the modelled behaviour. -/

/-- Length of the common run at the heads of the two lists. -/
def runLen : List Char → List Char → Nat
  | a :: as, b :: bs => if a == b then runLen as bs + 1 else 0
  | _, _ => 0

/-- difflib `SequenceMatcher.find_longest_match` on the window
`[alo, ahi) × [blo, bhi)` (no junk, and autojunk is inert below 200
characters): the longest matching block; ties go to the smallest start in
`a`, then the smallest start in `b`, which is the order in which the
Python scanning loop first completes a block of maximal size. -/
def find_longest_match (a b : List Char) (alo ahi blo bhi : Nat) : Nat × Nat × Nat :=
  (List.range' alo (ahi - alo)).foldl (fun best i =>
    (List.range' blo (bhi - blo)).foldl (fun best j =>
      let k := min (runLen (a.drop i) (b.drop j)) (min (ahi - i) (bhi - j))
      if best.2.2 < k then (i, j, k) else best) best)
    (alo, blo, 0)

/-- Total size of the matching blocks of `get_matching_blocks` (found by
recursing left and right of the longest match).  The fuel argument only
bounds the recursion; each found block strictly shrinks both windows, so
`length a + length b + 1` is always enough. -/
def matchTotalF (a b : List Char) : Nat → Nat → Nat → Nat → Nat → Nat
  | 0, _, _, _, _ => 0
  | fuel + 1, alo, ahi, blo, bhi =>
    let r := find_longest_match a b alo ahi blo bhi
    if r.2.2 = 0 then 0
    else matchTotalF a b fuel alo r.1 blo r.2.1 + r.2.2 +
         matchTotalF a b fuel (r.1 + r.2.2) ahi (r.2.1 + r.2.2) bhi

/-- `M`: the total matched characters between `a` and `b`, as summed by
difflib's `ratio`. -/
def matchSizesTotal (a b : List Char) : Nat :=
  matchTotalF a b (a.length + b.length + 1) 0 a.length 0 b.length

/-- `SequenceMatcher.ratio() = 2*M / T` as an exact fraction (numerator,
denominator); the `T = 0` case is Python's hard-coded `1.0`. -/
def ratioFrac (x word : List Char) : Nat × Nat :=
  let M := matchSizesTotal x word
  let T := x.length + word.length
  if T = 0 then (1, 1) else (2 * M, T)

/-- `ratio >= 0.7`, compared exactly: `n/d ≥ 7/10 ↔ 7d ≤ 10n` (for the
small integers arising here the Python float comparison agrees with the
exact rational one). -/
def ratioGeCutoff (x word : List Char) : Bool :=
  decide (7 * (ratioFrac x word).2 ≤ 10 * (ratioFrac x word).1)

/-- One step of `heapq.nlargest(1, [(ratio, x) for x ...])`: keep the
largest `(ratio, x)` tuple among the candidates that meet the cutoff;
Python tuple order breaks ratio ties towards the lexicographically larger
string.  Ratios are compared by exact cross-multiplication. -/
def nlargestStep (word : List Char) (best : Option (Nat × Nat × String)) (x : String) :
    Option (Nat × Nat × String) :=
  if ratioGeCutoff x.data word then
    let r := ratioFrac x.data word
    match best with
    | none => some (r.1, r.2, x)
    | some (n0, d0, x0) =>
      if n0 * r.2 < r.1 * d0 ∨ (n0 * r.2 = r.1 * d0 ∧ x0 < x) then some (r.1, r.2, x)
      else some (n0, d0, x0)
  else best

/-- difflib `get_close_matches(word, possibilities, n=1, cutoff=0.7)`
(the `quick_ratio` pre-filters are upper bounds of `ratio`, so they do not
change the result). -/
def get_close_matches1 (word : List Char) (possibilities : List String) : Option String :=
  (possibilities.foldl (nlargestStep word) none).map (fun p => p.2.2)

/-- An entry of the `options` dict passed to `find_best_match`: its
canonical key and its alias list. -/
structure MatchOption where
  key : String
  aliases : List String
  deriving DecidableEq

/-- `find_best_match` of app_v2.py (lines 115-149). -/
def find_best_match (text : String) (options : List MatchOption) : Option String :=
  let text_lower := pyStrip (pyLower text)
  let tl := text_lower.data
  match options.find? (fun e => strIn e.key.data tl || strIn tl e.key.data) with
  | some e => some e.key
  | none =>
    match options.find? (fun e =>
        e.aliases.any (fun al => strIn al.data tl || strIn tl al.data)) with
    | some e => some e.key
    | none =>
      let all_options := options.map (fun e => e.key) ++
        (options.map (fun e => e.aliases)).flatten
      match get_close_matches1 tl all_options with
      | none => none
      | some m =>
        match options.find? (fun e => e.key == m || e.aliases.contains m) with
        | some e => some e.key
        | none => none

/-- The `PRODUCTS` dict as seen by `find_best_match` (keys and aliases). -/
def productOptions : List MatchOption := PRODUCTS_v2.map (fun e => ⟨e.key, e.aliases⟩)

/-- The `DELIVERY_COSTS` dict as seen by `find_best_match`. -/
def cityOptions : List MatchOption := DELIVERY_COSTS_v2.map (fun e => ⟨e.key, e.aliases⟩)

/-! ## The extractor `extract_all_info`

`extract_all_info(text, context)` (app_v2.py lines 151-243) copies the
context dict and runs five regex/keyword detection blocks over the
utterance.  Each block below is one Lean function; `extract_all_info`
composes them in the source's statement order.  The regex searchers encode
`re.search` left-to-right scanning; the greedy `\d+`/`\s+` runs need no
backtracking against the literals that follow them (a shorter run would
place a digit or a space where the pattern next requires a non-digit
non-space character). -/

/-- The order-context dict: the five optional fields, all `None` at
conversation start. -/
structure Ctx where
  product : Option String
  specification : Option String
  quantity : Option Nat
  grade : Option String
  city : Option String
  deriving DecidableEq

/-- The initial/reset context (all fields `None`). -/
def emptyCtx : Ctx := ⟨none, none, none, none, none⟩

/-- Python truthiness of `result.get("quantity")`: `None` and `0` are
falsy. -/
def truthyN : Option Nat → Bool
  | none => false
  | some n => n != 0

/-- Python truthiness of a string field: `None` and `""` are falsy. -/
def truthyS : Option String → Bool
  | none => false
  | some s => !s.isEmpty

/-- `re.search` of `(\d+)\s*LIT` (the quantity patterns `kg`, `kgs`,
`kilogram`, `kilos`): leftmost position whose maximal digit run, followed
by optional whitespace, is followed by the literal; the captured group is
the digit run. -/
def searchNumLit (lit : List Char) : List Char → Option Nat
  | [] => none
  | l@(c :: rest) =>
    if c.isDigit then
      let d := digitRun l
      let after := l.drop d.length
      if lit.isPrefixOf (after.drop (spaceRun after).length) then some (digitsToNat d)
      else searchNumLit lit rest
    else searchNumLit lit rest

/-- `re.search` of `LIT\s+(\d+)` (the quantity patterns `for`, `need`,
`want`): the literal, at least one whitespace, then the captured digit
run. -/
def searchLitNum (lit : List Char) : List Char → Option Nat
  | [] => none
  | l@(_ :: rest) =>
    if lit.isPrefixOf l then
      let after := l.drop lit.length
      let sp := (spaceRun after).length
      let d := digitRun (after.drop sp)
      if decide (0 < sp) && !d.isEmpty then some (digitsToNat d)
      else searchLitNum lit rest
    else searchLitNum lit rest

/-- The quantity pattern list of lines 162-175, searched in order, first
match wins. -/
def extractQuantityPatterns (tl : List Char) : Option Nat :=
  searchNumLit "kg".data tl <|> searchNumLit "kgs".data tl <|>
  searchNumLit "kilogram".data tl <|> searchNumLit "kilos".data tl <|>
  searchLitNum "for".data tl <|> searchLitNum "need".data tl <|>
  searchLitNum "want".data tl

/-- `re.match(r'^\d+$', text.strip())` with `int(...)` (lines 178-179):
the whole stripped utterance is a nonempty digit string. -/
def bareNumber (text : String) : Option Nat :=
  let s := (pyStrip text).data
  if !s.isEmpty && s.all Char.isDigit then some (digitsToNat s) else none

/-- `re.search` of `(\d+(?:\.\d+)?)\s*LIT` (the specification patterns
`%`, `percent`, `concentration`), returning the captured group: the
greedy optional fraction is tried first, then the integer-only reading at
the same position. -/
def searchSpecNum (lit : List Char) : List Char → Option (List Char)
  | [] => none
  | l@(c :: rest) =>
    if c.isDigit then
      let d1 := digitRun l
      let a1 := l.drop d1.length
      let frac : Option (List Char) :=
        match a1 with
        | '.' :: a2 =>
          let d2 := digitRun a2
          if d2.isEmpty then none
          else
            let a3 := a2.drop d2.length
            if lit.isPrefixOf (a3.drop (spaceRun a3).length) then some (d1 ++ '.' :: d2)
            else none
        | _ => none
      match frac with
      | some g => some g
      | none =>
        if lit.isPrefixOf (a1.drop (spaceRun a1).length) then some d1
        else searchSpecNum lit rest
    else searchSpecNum lit rest

/-- The specification pattern list of lines 182-186, searched in order. -/
def specSearch (tl : List Char) : Option (List Char) :=
  searchSpecNum "%".data tl <|> searchSpecNum "percent".data tl <|>
  searchSpecNum "concentration".data tl

/-- The specification labels of a product (`PRODUCTS[p]["specifications"]`
keys). -/
def specLabels (p : String) : List String :=
  match PRODUCTS_v2.find? (fun e => e.key == p) with
  | some e => e.specs.map (fun se => se.label)
  | none => []

/-- Python `spec.replace("%", "")`. -/
def stripPct (s : String) : String := ⟨s.data.filter (fun c => c != '%')⟩

/-- Product block (line 157): a match from `find_best_match` replaces any
prior product. -/
def extractProduct (text : String) (prior : Option String) : Option String :=
  match find_best_match text productOptions with
  | some p => some p
  | none => prior

/-- Quantity blocks (lines 161-179): the pattern list overwrites; the
bare-number shortcut only fires when the quantity slot is still falsy. -/
def extractQuantity (text : String) (prior : Option Nat) : Option Nat :=
  let q1 : Option Nat :=
    match extractQuantityPatterns (pyLower text).data with
    | some n => some n
    | none => prior
  if !truthyN q1 then
    match bareNumber text with
    | some n => some n
    | none => q1
  else q1

/-- Specification block (lines 181-204): a found percentage is validated
against the (already merged) product when that product is truthy and a
catalog key; an invalid percentage leaves the slot unchanged; with no
usable product the raw value is stored. -/
def extractSpecification (text : String) (product1 prior : Option String) : Option String :=
  match specSearch (pyLower text).data with
  | none => prior
  | some raw =>
    match product1 with
    | some p =>
      if !p.isEmpty && PRODUCTS_v2.any (fun e => e.key == p) then
        if (specLabels p).contains (⟨raw ++ ['%']⟩ : String) then
          some ⟨raw ++ ['%']⟩
        else
          match (specLabels p).find? (fun sp => stripPct sp == (⟨raw⟩ : String)) with
          | some sp => some sp
          | none => prior
      else some ⟨raw ++ ['%']⟩
    | none => some ⟨raw ++ ['%']⟩

/-- Grade block (lines 206-214): a key substring returns at once (the
`break` leaves the loop); an alias substring stores the grade but the
outer loop continues, so a later grade can overwrite it. -/
def gradeScan (tl : List Char) : List GradeEntry → Option String → Option String
  | [], cur => cur
  | g :: rest, cur =>
    if strIn g.key.data tl then some g.key
    else gradeScan tl rest
      (if g.aliases.any (fun al => strIn al.data tl) then some g.key else cur)

/-- `\b` immediately before a needle that starts with a word character:
start of text or a preceding non-word character. -/
def boundaryOkBefore : Option Char → Bool
  | none => true
  | some c => !isWordChar c

/-- `\b` immediately after a needle that ends with a word character: end
of text or a following non-word character. -/
def boundaryOkAfter : List Char → Bool
  | [] => true
  | c :: _ => !isWordChar c

/-- The preposition alternatives of the first city pattern. -/
def CITY_PREPOSITIONS : List String :=
  ["in", "to", "at", "for", "deliver to", "delivery to", "ship to"]

/-- The suffix alternatives of the second city pattern. -/
def CITY_SUFFIX_WORDS : List String := ["delivery", "deliver", "ship"]

/-- Match of `(?:in|to|at|for|deliver to|delivery to|ship to)\s+NEEDLE\b`
starting exactly here (the leading `\b` is the caller's boundary check). -/
def prepCityAt (needle l : List Char) : Bool :=
  CITY_PREPOSITIONS.any (fun alt =>
    alt.data.isPrefixOf l &&
    (let after := l.drop alt.data.length
     let sp := (spaceRun after).length
     decide (0 < sp) && needle.isPrefixOf (after.drop sp) &&
       boundaryOkAfter ((after.drop sp).drop needle.length)))

/-- `re.search` of city pattern 1, `\b(?:in|...|ship to)\s+NEEDLE\b`. -/
def prepCitySearch (needle : List Char) : Option Char → List Char → Bool
  | _, [] => false
  | prev, l@(c :: rest) =>
    (boundaryOkBefore prev && prepCityAt needle l) || prepCitySearch needle (some c) rest

/-- Match of `NEEDLE\b\s*(?:delivery|deliver|ship)` starting exactly here. -/
def citySuffixAt (needle l : List Char) : Bool :=
  needle.isPrefixOf l &&
  (let after := l.drop needle.length
   boundaryOkAfter after &&
     CITY_SUFFIX_WORDS.any (fun w => w.data.isPrefixOf (after.drop (spaceRun after).length)))

/-- `re.search` of city pattern 2, `\bNEEDLE\b\s*(?:delivery|deliver|ship)`. -/
def citySuffixSearch (needle : List Char) : Option Char → List Char → Bool
  | _, [] => false
  | prev, l@(c :: rest) =>
    (boundaryOkBefore prev && citySuffixAt needle l) || citySuffixSearch needle (some c) rest

/-- `re.search` of city pattern 3, the bare `\bNEEDLE\b`. -/
def wordSearch (needle : List Char) : Option Char → List Char → Bool
  | prev, [] => boundaryOkBefore prev && needle.isPrefixOf ([] : List Char)
  | prev, l@(c :: rest) =>
    (boundaryOkBefore prev && needle.isPrefixOf l &&
     boundaryOkAfter (l.drop needle.length)) || wordSearch needle (some c) rest

/-- The ordered city pattern list of lines 219-223 for one needle; every
pattern stores the same city, so the loop's effect is this disjunction. -/
def cityPatternsHit (needle tl : List Char) : Bool :=
  prepCitySearch needle none tl || citySuffixSearch needle none tl ||
  wordSearch needle none tl

/-- City block (lines 216-241).  The accumulated slot is threaded: after
each entry's key patterns the loop breaks as soon as the slot is truthy
(line 230), so a truthy prior city survives every entry after the first;
an alias match stores the city but only breaks the alias loop, letting the
next entry's key patterns overwrite it before line 230 breaks. -/
def cityLoop (tl : List Char) : List CityEntry → Option String → Option String
  | [], cur => cur
  | e :: rest, cur =>
    let cur1 := if cityPatternsHit e.key.data tl then some e.key else cur
    if truthyS cur1 then cur1
    else
      cityLoop tl rest
        (if e.aliases.any (fun al => cityPatternsHit al.data tl) then some e.key else cur1)

/-- `extract_all_info(text, context)` of app_v2.py (lines 151-243): copy
the context, run the five blocks in source order (the specification block
reads the just-updated product slot; the city block reads the prior city
slot). -/
def extract_all_info (text : String) (context : Ctx) : Ctx :=
  let product1 := extractProduct text context.product
  { product := product1,
    specification := extractSpecification text product1 context.specification,
    quantity := extractQuantity text context.quantity,
    grade := gradeScan (pyLower text).data GRADE_PREMIUMS_v2 context.grade,
    city := cityLoop (pyLower text).data DELIVERY_COSTS_v2 context.city }

/-! ## The v2 per-turn dialogue branch -/

/-- The greeting lexicon of `is_greeting` (app_v2.py line 295). -/
def GREETINGS : List String :=
  ["hi", "hello", "hey", "namaste", "good morning", "good afternoon", "good evening"]

/-- `is_greeting` (lines 293-302): exact equality, `re.match(rf'^{g}\b')`
(the greeting as a word-bounded prefix), or `re.match(rf'\b{g}$')`, which
is anchored at position 0 and so again forces exact equality (every
greeting starts with a word character). -/
def is_greeting (text : String) : Bool :=
  let tl := pyStrip (pyLower text)
  GREETINGS.any (fun g =>
    tl == g ||
    (g.data.isPrefixOf tl.data && boundaryOkAfter (tl.data.drop g.data.length)) ||
    tl == g)

/-- The help trigger words of the `elif` branch (line 600). -/
def HELP_WORDS : List String := ["help", "how to", "what can you"]

/-- `any(word in prompt.lower() for word in [...])` (line 600). -/
def helpRequested (prompt : String) : Bool :=
  HELP_WORDS.any (fun w => strIn w.data (pyLower prompt).data)

/-- The control outcome of one assistant turn; the greeting and help
replies are fixed string constants in the source, `clarify` carries the
missing-field list `generate_response` enumerates, `quoted` carries the
pricing result. -/
inductive Reply
  | greeting
  | helpText
  | clarify (missing : List String)
  | quoted (result : Option QuoteResult)
  deriving DecidableEq

/-- The missing-field scan of `generate_response` (lines 309-314), in its
fixed field order, with Python truthiness. -/
def missingFields (c : Ctx) : List String :=
  (if truthyS c.product then [] else ["product"]) ++
  (if truthyS c.specification then [] else ["specification"]) ++
  (if truthyN c.quantity then [] else ["quantity"]) ++
  (if truthyS c.grade then [] else ["grade"]) ++
  (if truthyS c.city then [] else ["city"])

/-- The context-update loop of lines 631-633: every non-`None` parsed
value is written back into the session context. -/
def updateCtx (c parsed : Ctx) : Ctx :=
  { product := match parsed.product with | some v => some v | none => c.product,
    specification :=
      match parsed.specification with | some v => some v | none => c.specification,
    quantity := match parsed.quantity with | some v => some v | none => c.quantity,
    grade := match parsed.grade with | some v => some v | none => c.grade,
    city := match parsed.city with | some v => some v | none => c.city }

/-- One turn of the v2 chat handler (lines 583-673) with the optional AI
model absent (`model is None`), so parsing is `extract_all_info`: a
greeting resets the context to all-`None`; the help branch answers
statically and leaves the context alone; otherwise the utterance is
extracted, merged, and either the missing fields are requested or
`calculate_quotation` runs on the completed context. -/
def processTurn (prompt : String) (context : Ctx) : Reply × Ctx :=
  if is_greeting prompt then
    (.greeting, emptyCtx)
  else if helpRequested prompt then
    (.helpText, context)
  else
    let parsed := extract_all_info prompt context
    let ctx2 := updateCtx context parsed
    if (missingFields ctx2).isEmpty then
      (.quoted (calculate_quotation_v2 (ctx2.product.getD "") (ctx2.specification.getD "")
        (ctx2.quantity.getD 0) (ctx2.grade.getD "") (ctx2.city.getD "")), ctx2)
    else
      (.clarify (missingFields ctx2), ctx2)

end ChatBot

namespace ChatBot

set_option maxRecDepth 2000000

/-- If no candidate reaches the 0.7 cutoff, `get_close_matches` is empty. -/
theorem get_close_matches1_eq_none (word : List Char) (ps : List String)
    (h : ∀ x ∈ ps, ratioGeCutoff x.data word = false) :
    get_close_matches1 word ps = none := by
  have key : ∀ l : List String, (∀ x ∈ l, ratioGeCutoff x.data word = false) →
      List.foldl (nlargestStep word) none l = none := by
    intro l
    induction l with
    | nil => intro _; rfl
    | cons x xs ih =>
      intro hl
      have hx : ratioGeCutoff x.data word = false := hl x (List.mem_cons_self x xs)
      have : nlargestStep word none x = none := by simp [nlargestStep, hx]
      simp only [List.foldl_cons, this]
      exact ih (fun y hy => hl y (List.mem_cons_of_mem x hy))
  unfold get_close_matches1
  rw [key ps h]
  rfl

/-- C1: the worked example order (ashwagandha, "5%", 50 kg, pharmaceutical,
mumbai) prices to base 2800, subtotal 140000, 10% discount 14000, 20%
premium 28000, delivery 3500, pre-tax 157500, GST 28350, total 185850, in
both implementations of `calculate_quotation`. -/
theorem C1_example_quote :
    calculate_quotation_v2 "ashwagandha" "5%" 50 "pharmaceutical" "mumbai" =
      some (.quote
        { base_price := 2800, moq := 25, quantity := 50, subtotal := 140000,
          volume_discount_pct := 10, volume_discount_amt := 14000,
          grade_premium_pct := 20, grade_premium_amt := 28000,
          delivery_cost := 3500, subtotal_before_gst := 157500,
          gst_amount := 28350, total := 185850 }) ∧
    calculate_quotation_v1 "ashwagandha" "5%" 50 "pharmaceutical" "mumbai" =
      some (.quote
        { base_price := 2800, moq := 25, quantity := 50, subtotal := 140000,
          volume_discount_pct := 10, volume_discount_amt := 14000,
          grade_premium_pct := 20, grade_premium_amt := 28000,
          delivery_cost := 3500, subtotal_before_gst := 157500,
          gst_amount := 28350, total := 185850 }) := by
  have hs2 : lookupSpec_v2 "ashwagandha" "5%" = some ⟨"5%", 2800, 25⟩ := by decide
  have hs1 : lookupSpec_v1 "ashwagandha" "5%" = some ⟨"5%", 2800, 25⟩ := by decide
  have hg2 : GRADE_PREMIUMS_v2.find? (fun g => g.key == "pharmaceutical") =
      some ⟨"pharmaceutical", 20, ["pharma", "medical", "pharmceutical"]⟩ := by decide
  have hc2 : DELIVERY_COSTS_v2.find? (fun ce => ce.key == "mumbai") =
      some ⟨"mumbai", 3500, ["bombay", "mumbay"]⟩ := by decide
  have hg1 : GRADE_PREMIUMS_v1.find? (fun g => g.1 == pyLower "pharmaceutical") =
      some ("pharmaceutical", 20) := by decide
  have hc1 : DELIVERY_COSTS_v1.find? (fun cc => cc.1 == pyLower "mumbai") =
      some ("mumbai", 3500) := by decide
  have hv : get_volume_discount 50 = 10 := by decide
  constructor
  · simp only [calculate_quotation_v2, hs2, hg2, hc2, hv]
    norm_num [GST_RATE]
  · simp only [calculate_quotation_v1, hs1, hg1, hc1, hv]
    norm_num [GST_RATE]

/-- C3: the volume-discount tiers map 24 ↦ 0%, 25 ↦ 10%, 99 ↦ 10%,
100 ↦ 15%, 499 ↦ 15%, and every quantity ≥ 500 to 20%; on the positive
integers the four tiers are a partition (each quantity lies in exactly one
tier), the top tier being unbounded. -/
theorem C3_volume_discount_tiers :
    (get_volume_discount 24 = 0 ∧ get_volume_discount 25 = 10 ∧
     get_volume_discount 99 = 10 ∧ get_volume_discount 100 = 15 ∧
     get_volume_discount 499 = 15 ∧ get_volume_discount 500 = 20) ∧
    (∀ q : Nat, 500 ≤ q → get_volume_discount q = 20) ∧
    (∀ q : Nat, 1 ≤ q → VOLUME_DISCOUNTS.countP (fun t => inTier t.1 q) = 1) := by
  refine ⟨by decide, ?_, ?_⟩
  · intro q hq
    have c1 : ¬ (q ≤ 24) := by omega
    have c2 : ¬ (q ≤ 99) := by omega
    have c3 : ¬ (q ≤ 499) := by omega
    have c0 : 1 ≤ q := by omega
    simp [get_volume_discount, VOLUME_DISCOUNTS, inTier, List.find?, c1, c2, c3, c0, hq]
  · intro q hq
    by_cases c1 : q ≤ 24
    · have d1 : ¬ 25 ≤ q := by omega
      have d2 : ¬ 100 ≤ q := by omega
      have d3 : ¬ 500 ≤ q := by omega
      simp [VOLUME_DISCOUNTS, inTier, List.countP_cons, hq, c1, d1, d2, d3]
    · by_cases c2 : q ≤ 99
      · have d1 : 25 ≤ q := by omega
        have d2 : ¬ 100 ≤ q := by omega
        have d3 : ¬ 500 ≤ q := by omega
        simp [VOLUME_DISCOUNTS, inTier, List.countP_cons, hq, c1, c2, d1, d2, d3]
      · by_cases c3 : q ≤ 499
        · have d1 : 25 ≤ q := by omega
          have d2 : 100 ≤ q := by omega
          have d3 : ¬ 500 ≤ q := by omega
          simp [VOLUME_DISCOUNTS, inTier, List.countP_cons, hq, c1, c2, c3, d1, d2, d3]
        · have d1 : 25 ≤ q := by omega
          have d2 : 100 ≤ q := by omega
          have d3 : 500 ≤ q := by omega
          simp [VOLUME_DISCOUNTS, inTier, List.countP_cons, hq, c1, c2, c3, d1, d2, d3]

/-- C3 witness: the universally quantified parts of
`C3_volume_discount_tiers` applied at concrete quantities. -/
theorem C3_volume_discount_tiers_witness :
    get_volume_discount 1000 = 20 ∧
    VOLUME_DISCOUNTS.countP (fun t => inTier t.1 37) = 1 :=
  ⟨C3_volume_discount_tiers.2.1 1000 (by omega),
   C3_volume_discount_tiers.2.2 37 (by omega)⟩

/-- C2: with a known (product, specification) pair carrying `si`, pricing
succeeds at quantity exactly `si.moq` (for resolvable grade and city in
v2; for any grade/city strings in v1), and any quantity below the MOQ
yields the below-minimum-order error carrying exactly `si.moq` and no
quote fields. -/
theorem C2_moq_boundary (product specification : String) (si : SpecEntry)
    (hs2 : lookupSpec_v2 product specification = some si) :
    (∀ grade city gp ce,
        GRADE_PREMIUMS_v2.find? (fun g => g.key == grade) = some gp →
        DELIVERY_COSTS_v2.find? (fun c => c.key == city) = some ce →
        ∃ q : Quote,
          calculate_quotation_v2 product specification si.moq grade city = some (.quote q)) ∧
    (∀ grade city quantity, quantity < si.moq →
        calculate_quotation_v2 product specification quantity grade city =
          some (.belowMoq si.moq)) ∧
    (lookupSpec_v1 product specification = some si →
      ∀ grade city,
        (∃ q : Quote,
          calculate_quotation_v1 product specification si.moq grade city = some (.quote q)) ∧
        (∀ quantity, quantity < si.moq →
          calculate_quotation_v1 product specification quantity grade city =
            some (.belowMoq si.moq))) := by
  refine ⟨?_, ?_, ?_⟩
  · intro grade city gp ce hg hc
    unfold calculate_quotation_v2
    rw [hs2]
    simp only [Nat.lt_irrefl, if_false, hg, hc]
    exact ⟨_, rfl⟩
  · intro grade city quantity hlt
    unfold calculate_quotation_v2
    rw [hs2]
    simp [hlt]
  · intro hs1 grade city
    constructor
    · unfold calculate_quotation_v1
      rw [hs1]
      simp only [Nat.lt_irrefl, if_false]
      exact ⟨_, rfl⟩
    · intro quantity hlt
      unfold calculate_quotation_v1
      rw [hs1]
      simp [hlt]

/-- C2 witness: `C2_moq_boundary` at ashwagandha 5% (MOQ 25): quantity 25
succeeds, quantity 24 fails carrying MOQ 25, in both implementations. -/
theorem C2_moq_boundary_witness :
    (∃ q : Quote,
      calculate_quotation_v2 "ashwagandha" "5%" 25 "pharmaceutical" "mumbai" =
        some (.quote q)) ∧
    calculate_quotation_v2 "ashwagandha" "5%" 24 "pharmaceutical" "mumbai" =
      some (.belowMoq 25) ∧
    (∃ q : Quote,
      calculate_quotation_v1 "ashwagandha" "5%" 25 "pharmaceutical" "mumbai" =
        some (.quote q)) ∧
    calculate_quotation_v1 "ashwagandha" "5%" 24 "pharmaceutical" "mumbai" =
      some (.belowMoq 25) := by
  have h := C2_moq_boundary "ashwagandha" "5%" ⟨"5%", 2800, 25⟩ (by decide)
  have h1 := h.2.2 (by decide) "pharmaceutical" "mumbai"
  exact ⟨h.1 "pharmaceutical" "mumbai"
           ⟨"pharmaceutical", 20, ["pharma", "medical", "pharmceutical"]⟩
           ⟨"mumbai", 3500, ["bombay", "mumbay"]⟩ (by decide) (by decide),
         h.2.1 "pharmaceutical" "mumbai" 24 (by decide), h1.1, h1.2 24 (by decide)⟩

/-- C8 counterexample: the claim says pricing never crashes on the city
lookup, but `calculate_quotation` of app_v2.py indexes
`DELIVERY_COSTS[city]` directly: for the complete order with unknown city
"goa" it raises `KeyError` (modelled `none`) and produces nothing. -/
theorem C8_city_fallback_counterexample :
    calculate_quotation_v2 "ashwagandha" "5%" 50 "pharmaceutical" "goa" = none ∧
    DELIVERY_COSTS_v2.find? (fun c => c.key == "goa") = none := by decide

/-- C8 (amended): in app.py the pricing function resolves every order to
exactly one delivery cost, falling back to cost 0 when the city matches no
delivery-zone key, and never crashes on the city lookup; in app_v2.py an
unmatched city makes the pricing function raise (no quote). -/
theorem C8_city_fallback (product specification grade city : String)
    (si : SpecEntry) (quantity : Nat)
    (hs1 : lookupSpec_v1 product specification = some si) (hq : si.moq ≤ quantity) :
    (∃ q : Quote,
      calculate_quotation_v1 product specification quantity grade city = some (.quote q) ∧
      q.delivery_cost =
        ((DELIVERY_COSTS_v1.find? (fun cc => cc.1 == pyLower city)).map Prod.snd).getD 0) ∧
    (∀ gp, GRADE_PREMIUMS_v2.find? (fun g => g.key == grade) = some gp →
      DELIVERY_COSTS_v2.find? (fun c => c.key == city) = none →
      lookupSpec_v2 product specification = some si →
      calculate_quotation_v2 product specification quantity grade city = none) := by
  constructor
  · unfold calculate_quotation_v1
    rw [hs1]
    have : ¬ quantity < si.moq := by omega
    simp only [this, if_false]
    exact ⟨_, rfl, rfl⟩
  · intro gp hg hc hs2
    unfold calculate_quotation_v2
    rw [hs2]
    have : ¬ quantity < si.moq := by omega
    simp only [this, if_false, hg, hc]

/-- C8 witness: the amended theorem at the concrete unknown city "goa":
v1 prices the order with delivery cost 0, v2 crashes. -/
theorem C8_city_fallback_witness :
    (∃ q : Quote,
      calculate_quotation_v1 "ashwagandha" "5%" 50 "pharmaceutical" "goa" = some (.quote q) ∧
      q.delivery_cost =
        ((DELIVERY_COSTS_v1.find? (fun cc => cc.1 == pyLower "goa")).map Prod.snd).getD 0) ∧
    calculate_quotation_v2 "ashwagandha" "5%" 50 "pharmaceutical" "goa" = none := by
  have h := C8_city_fallback "ashwagandha" "5%" "pharmaceutical" "goa" ⟨"5%", 2800, 25⟩ 50
    (by decide) (by decide)
  exact ⟨h.1, h.2 ⟨"pharmaceutical", 20, ["pharma", "medical", "pharmceutical"]⟩
    (by decide) (by decide) (by decide)⟩

/-- C10: on canonical inputs (catalog product and specification, canonical
grade and city keys) the two `calculate_quotation` implementations return
identical results: same numeric quote fields, same MOQ-error behaviour. -/
theorem C10_v1_v2_equivalence (product specification grade city : String)
    (quantity : Nat) (si : SpecEntry)
    (hp : product ∈ ["ashwagandha", "boswellia", "curcumin", "neem", "tulsi"])
    (_hs : lookupSpec_v2 product specification = some si)
    (hg : grade ∈ ["pharmaceutical", "cosmetic", "food"])
    (hc : city ∈ ["mumbai", "delhi", "bangalore", "pune", "ujjain", "local"]) :
    calculate_quotation_v1 product specification quantity grade city =
      calculate_quotation_v2 product specification quantity grade city := by
  fin_cases hp <;> fin_cases hg <;> fin_cases hc <;> rfl

/-- C10 witness: the equivalence applied at a concrete canonical order. -/
theorem C10_v1_v2_equivalence_witness :
    calculate_quotation_v1 "curcumin" "95%" 120 "cosmetic" "delhi" =
      calculate_quotation_v2 "curcumin" "95%" 120 "cosmetic" "delhi" :=
  C10_v1_v2_equivalence "curcumin" "95%" "cosmetic" "delhi" 120 ⟨"95%", 3000, 25⟩
    (by decide) (by decide) (by decide) (by decide)

/-- C7 counterexample: "nit" is a one-character misspelling (same length,
same first two characters) of "nim", a catalog alias of the canonical key
"neem", yet `find_best_match` resolves it to nothing: its similarity to
"nim" is 2·2/6 ≈ 0.667, below the 0.7 cutoff, and no containment applies.
So a one-character misspelling of a key or alias does not always resolve
to the correct canonical key. -/
theorem C7_matcher_counterexample :
    "nim" ∈ (PRODUCTS_v2.map (fun e => e.aliases)).flatten ∧
    (PRODUCTS_v2.find? (fun e => e.aliases.contains "nim")).map (fun e => e.key) =
      some "neem" ∧
    "nit" ≠ "nim" ∧ "nit".data.length = "nim".data.length ∧
    "nit".data.take 2 = "nim".data.take 2 ∧
    ratioFrac "nim".data "nit".data = (4, 6) ∧
    find_best_match "nit" productOptions = none := by decide

/-- C7 (amended): a one-character misspelling resolves to the correct
canonical key when some stage still accepts it — by containment
("ashwagandh" → ashwagandha), or by fuzzy similarity ≥ 0.7 of a key
("curcmin" → curcumin) or of an alias mapped to its owner
("mumby" ≈ alias "mumbay" → mumbai); a misspelling below the cutoff with
no containment ("nit" for "nim") yields none; and a word with no
containment against any key or alias and similarity below 0.7 against
every key and alias never resolves to any key (no stage matches → none). -/
theorem C7_matcher_resolution :
    (find_best_match "ashwagandh" productOptions = some "ashwagandha" ∧
     find_best_match "curcmin" productOptions = some "curcumin" ∧
     find_best_match "mumby" cityOptions = some "mumbai" ∧
     find_best_match "nit" productOptions = none) ∧
    (∀ (text : String) (options : List MatchOption),
      (∀ e ∈ options,
        (strIn e.key.data (pyStrip (pyLower text)).data = false ∧
         strIn (pyStrip (pyLower text)).data e.key.data = false) ∧
        ∀ al ∈ e.aliases,
          strIn al.data (pyStrip (pyLower text)).data = false ∧
          strIn (pyStrip (pyLower text)).data al.data = false) →
      (∀ e ∈ options,
        ratioGeCutoff e.key.data (pyStrip (pyLower text)).data = false ∧
        ∀ al ∈ e.aliases,
          ratioGeCutoff al.data (pyStrip (pyLower text)).data = false) →
      find_best_match text options = none) := by
  constructor
  · refine ⟨by decide, by decide, by decide, by decide⟩
  · intro text options hcont hfuzz
    unfold find_best_match
    have h1 : options.find?
        (fun e => strIn e.key.data (pyStrip (pyLower text)).data ||
                  strIn (pyStrip (pyLower text)).data e.key.data) = none := by
      rw [List.find?_eq_none]
      intro e he
      have := (hcont e he).1
      simp [this.1, this.2]
    have h2 : options.find? (fun e =>
        e.aliases.any (fun al => strIn al.data (pyStrip (pyLower text)).data ||
                                 strIn (pyStrip (pyLower text)).data al.data)) = none := by
      rw [List.find?_eq_none]
      intro e he
      simp only [Bool.not_eq_true, List.any_eq_false]
      intro al hal
      have := (hcont e he).2 al hal
      simp [this.1, this.2]
    have h3 : get_close_matches1 (pyStrip (pyLower text)).data
        (options.map (fun e => e.key) ++ (options.map (fun e => e.aliases)).flatten) = none := by
      apply get_close_matches1_eq_none
      intro x hx
      rcases List.mem_append.mp hx with hk | ha
      · rcases List.mem_map.mp hk with ⟨e, he, rfl⟩
        exact (hfuzz e he).1
      · rcases List.mem_flatten.mp ha with ⟨l, hl, hxl⟩
        rcases List.mem_map.mp hl with ⟨e, he, rfl⟩
        exact (hfuzz e he).2 x hxl
    simp only [h1, h2, h3]

/-- C7 witness: the no-false-resolution part of `C7_matcher_resolution`
applied to the unrelated word "pencil" against the product catalog. -/
theorem C7_matcher_resolution_witness :
    find_best_match "pencil" productOptions = none :=
  C7_matcher_resolution.2 "pencil" productOptions (by decide) (by decide)

/-! ## Extractor lemmas -/

/-- A slot already set is never cleared by the grade loop. -/
theorem gradeScan_isSome (tl : List Char) :
    ∀ (L : List GradeEntry) (x : String), (gradeScan tl L (some x)).isSome = true := by
  intro L
  induction L with
  | nil => intro x; rfl
  | cons g rest ih =>
    intro x
    cases hk : strIn g.key.data tl with
    | true => simp [gradeScan, hk]
    | false =>
      cases ha : g.aliases.any (fun al => strIn al.data tl) with
      | true => simpa [gradeScan, hk, ha] using ih g.key
      | false => simpa [gradeScan, hk, ha] using ih x

/-- The grade loop is idempotent in the threaded slot. -/
theorem gradeScan_idem (tl : List Char) :
    ∀ (L : List GradeEntry) (x : Option String),
      gradeScan tl L (gradeScan tl L x) = gradeScan tl L x := by
  intro L
  induction L with
  | nil => intro x; rfl
  | cons g rest ih =>
    intro x
    cases hk : strIn g.key.data tl with
    | true => simp [gradeScan, hk]
    | false =>
      cases ha : g.aliases.any (fun al => strIn al.data tl) with
      | true => simp [gradeScan, hk, ha]
      | false => simpa [gradeScan, hk, ha] using ih x

/-- A grade detected from the utterance alone overwrites any prior slot. -/
theorem gradeScan_detect_some (tl : List Char) :
    ∀ (L : List GradeEntry) (g : String) (cur : Option String),
      gradeScan tl L none = some g → gradeScan tl L cur = some g := by
  intro L
  induction L with
  | nil => intro g cur h; cases h
  | cons e rest ih =>
    intro g cur h
    cases hk : strIn e.key.data tl with
    | true => simp [gradeScan, hk] at h ⊢; exact h
    | false =>
      cases ha : e.aliases.any (fun al => strIn al.data tl) with
      | true =>
        simp only [gradeScan, hk, Bool.false_eq_true, if_false, ha, if_true] at h ⊢
        exact h
      | false =>
        simp only [gradeScan, hk, Bool.false_eq_true, if_false, ha] at h ⊢
        exact ih g cur h

/-- No grade detected from the utterance alone: the prior slot is kept. -/
theorem gradeScan_detect_none (tl : List Char) :
    ∀ (L : List GradeEntry) (cur : Option String),
      gradeScan tl L none = none → gradeScan tl L cur = cur := by
  intro L
  induction L with
  | nil => intro cur _; rfl
  | cons e rest ih =>
    intro cur h
    cases hk : strIn e.key.data tl with
    | true => simp [gradeScan, hk] at h
    | false =>
      cases ha : e.aliases.any (fun al => strIn al.data tl) with
      | true =>
        simp only [gradeScan, hk, Bool.false_eq_true, if_false, ha, if_true] at h
        have := gradeScan_isSome tl rest e.key
        rw [h] at this
        cases this
      | false =>
        simp only [gradeScan, hk, Bool.false_eq_true, if_false, ha] at h ⊢
        exact ih cur h

/-- The city loop preserves truthiness of the threaded slot (catalog keys
are nonempty strings). -/
theorem cityLoop_truthy (tl : List Char) :
    ∀ (L : List CityEntry), (∀ e ∈ L, e.key.isEmpty = false) →
      ∀ cur : Option String, truthyS cur = true → truthyS (cityLoop tl L cur) = true := by
  intro L
  induction L with
  | nil => intro _ cur h; exact h
  | cons e rest ih =>
    intro hkeys cur h
    have hek : truthyS (some e.key) = true := by
      simp [truthyS, hkeys e (List.mem_cons_self e rest)]
    cases hhit : cityPatternsHit e.key.data tl with
    | true => simp [cityLoop, hhit, hek]
    | false => simp [cityLoop, hhit, h]

/-- With a non-truthy prior slot, the city loop returns the detected city
when there is one and the prior slot otherwise. -/
theorem cityLoop_untruthy (tl : List Char) :
    ∀ (L : List CityEntry), (∀ e ∈ L, e.key.isEmpty = false) →
      ∀ cur : Option String, truthyS cur = false →
        cityLoop tl L cur =
          (match cityLoop tl L none with
           | some d => some d
           | none => cur) := by
  intro L
  induction L with
  | nil => intro _ cur _; rfl
  | cons e rest ih =>
    intro hkeys cur h
    have hkeys' : ∀ e2 ∈ rest, e2.key.isEmpty = false :=
      fun e2 he2 => hkeys e2 (List.mem_cons_of_mem e he2)
    have hek : truthyS (some e.key) = true := by
      simp [truthyS, hkeys e (List.mem_cons_self e rest)]
    have hn : truthyS (none : Option String) = false := rfl
    cases hhit : cityPatternsHit e.key.data tl with
    | true => simp [cityLoop, hhit, hek]
    | false =>
      cases hal : e.aliases.any (fun al => cityPatternsHit al.data tl) with
      | true =>
        have ht := cityLoop_truthy tl rest hkeys' (some e.key) hek
        simp only [cityLoop, hhit, Bool.false_eq_true, if_false, h, hal, if_true, hn]
        cases hx : cityLoop tl rest (some e.key) with
        | some d => rfl
        | none => rw [hx] at ht; cases ht
      | false =>
        simp only [cityLoop, hhit, Bool.false_eq_true, if_false, h, hal, hn]
        exact ih hkeys' cur h

/-- The city loop is idempotent in the threaded slot. -/
theorem cityLoop_idem (tl : List Char) :
    ∀ (L : List CityEntry), (∀ e ∈ L, e.key.isEmpty = false) →
      ∀ x : Option String, cityLoop tl L (cityLoop tl L x) = cityLoop tl L x := by
  intro L
  induction L with
  | nil => intro _ x; rfl
  | cons e rest ih =>
    intro hkeys x
    have hkeys' : ∀ e2 ∈ rest, e2.key.isEmpty = false :=
      fun e2 he2 => hkeys e2 (List.mem_cons_of_mem e he2)
    have hek : truthyS (some e.key) = true := by
      simp [truthyS, hkeys e (List.mem_cons_self e rest)]
    cases hhit : cityPatternsHit e.key.data tl with
    | true => simp [cityLoop, hhit, hek]
    | false =>
      cases hx : truthyS x with
      | true => simp [cityLoop, hhit, hx]
      | false =>
        cases hal : e.aliases.any (fun al => cityPatternsHit al.data tl) with
        | true =>
          have ht := cityLoop_truthy tl rest hkeys' (some e.key) hek
          simp [cityLoop, hhit, hx, hal, ht]
        | false =>
          have hr : cityLoop tl (e :: rest) x = cityLoop tl rest x := by
            simp [cityLoop, hhit, hx, hal]
          rw [hr]
          cases htr : truthyS (cityLoop tl rest x) with
          | true => simp [cityLoop, hhit, htr]
          | false =>
            have : cityLoop tl (e :: rest) (cityLoop tl rest x) =
                cityLoop tl rest (cityLoop tl rest x) := by
              simp [cityLoop, hhit, htr, hal]
            rw [this]
            exact ih hkeys' x

/-- The product step is idempotent. -/
theorem extractProduct_idem (text : String) (x : Option String) :
    extractProduct text (extractProduct text x) = extractProduct text x := by
  unfold extractProduct
  cases find_best_match text productOptions <;> rfl

/-- The quantity step is idempotent. -/
theorem extractQuantity_idem (text : String) (x : Option Nat) :
    extractQuantity text (extractQuantity text x) = extractQuantity text x := by
  unfold extractQuantity
  cases hp : extractQuantityPatterns (pyLower text).data with
  | some n =>
    cases n with
    | zero =>
      cases hb : bareNumber text with
      | some m =>
        cases m with
        | zero => simp [truthyN, hb]
        | succ k => simp [truthyN, hb]
      | none => simp [truthyN, hb]
    | succ k => simp [truthyN]
  | none =>
    cases x with
    | none =>
      cases hb : bareNumber text with
      | some m =>
        cases m with
        | zero => simp [truthyN, hb]
        | succ k => simp [truthyN, hb]
      | none => simp [truthyN, hb]
    | some j =>
      cases j with
      | zero =>
        cases hb : bareNumber text with
        | some m =>
          cases m with
          | zero => simp [truthyN, hb]
          | succ k => simp [truthyN, hb]
        | none => simp [truthyN, hb]
      | succ k => simp [truthyN]

/-- The specification step is idempotent for a fixed merged product. -/
theorem extractSpecification_idem (text : String) (p x : Option String) :
    extractSpecification text p (extractSpecification text p x) =
      extractSpecification text p x := by
  unfold extractSpecification
  cases hs : specSearch (pyLower text).data with
  | none => rfl
  | some raw =>
    cases p with
    | none => rfl
    | some q =>
      cases hq : !q.isEmpty && PRODUCTS_v2.any (fun e => e.key == q) with
      | false => simp [hq]
      | true =>
        by_cases hm : (⟨raw ++ ['%']⟩ : String) ∈ specLabels q
        · simp [hq, hm]
        · cases hf : (specLabels q).find? (fun sp => stripPct sp == (⟨raw⟩ : String)) with
          | some sp => simp [hq, hm, hf]
          | none => simp [hq, hm, hf]

/-- C4: a percentage in the utterance that matches no specification label
of the already-known product — neither literally as "raw%" nor by numeric
value with the percent sign stripped — leaves the specification field at
its prior value; the invalid tier is never stored. -/
theorem C4_spec_validation (text : String) (context : Ctx) (p : String) (raw : List Char)
    (hp : extractProduct text context.product = some p)
    (hknown : (!p.isEmpty && PRODUCTS_v2.any (fun e => e.key == p)) = true)
    (hraw : specSearch (pyLower text).data = some raw)
    (hnot : (specLabels p).contains (⟨raw ++ ['%']⟩ : String) = false)
    (hnum : (specLabels p).find? (fun sp => stripPct sp == (⟨raw⟩ : String)) = none) :
    (extract_all_info text context).specification = context.specification := by
  have hmem : (⟨raw ++ ['%']⟩ : String) ∉ specLabels p := by simpa using hnot
  unfold extract_all_info
  dsimp only
  rw [hp]
  unfold extractSpecification
  rw [hraw]
  simp [hknown, hmem, hnum]

/-- C4 witness: `C4_spec_validation` at the spec's own example, the
utterance "7%" with ashwagandha (tiers 2.5/5/10%) already known. -/
theorem C4_spec_validation_witness :
    (extract_all_info "7%" ⟨some "ashwagandha", none, none, none, none⟩).specification =
      (⟨some "ashwagandha", none, none, none, none⟩ : Ctx).specification :=
  C4_spec_validation "7%" ⟨some "ashwagandha", none, none, none, none⟩ "ashwagandha"
    ['7'] (by decide) (by decide) (by decide) (by decide) (by decide)

/-- C5 counterexample: the utterance "deliver to pune" does yield a city
detection (on an empty context it produces pune), but against a prior
context whose city is "delhi" the returned context still has city
"delhi": the city loop breaks at the first catalog entry as soon as the
slot is truthy, so the newly detected value does not overwrite the prior
one, contradicting the claimed merge policy. -/
theorem C5_merge_counterexample :
    (extract_all_info "deliver to pune" emptyCtx).city = some "pune" ∧
    (extract_all_info "deliver to pune"
        ⟨none, none, none, none, some "delhi"⟩).city = some "delhi" := by decide

/-- C5 (amended): the extractor is pure (a Lean function of the utterance
and prior context, returning a fresh record) and merges fieldwise:
product and grade detections overwrite the prior value and their absence
keeps it; a pattern-matched quantity overwrites, while the bare-number
quantity only fills a `None`/0 slot; an undetected specification keeps the
prior value; a truthy prior city is overwritten only when the first
catalog key "mumbai" matches the utterance's city patterns, any other
detected city leaving it unchanged, and a non-truthy prior city is
replaced by the detected city when there is one. -/
theorem C5_extractor_merge (text : String) (context : Ctx) :
    (∀ p, find_best_match text productOptions = some p →
      (extract_all_info text context).product = some p) ∧
    (find_best_match text productOptions = none →
      (extract_all_info text context).product = context.product) ∧
    (∀ n, extractQuantityPatterns (pyLower text).data = some n →
      (n ≠ 0 ∨ bareNumber text = none) →
      (extract_all_info text context).quantity = some n) ∧
    (extractQuantityPatterns (pyLower text).data = none → bareNumber text = none →
      (extract_all_info text context).quantity = context.quantity) ∧
    (∀ n, extractQuantityPatterns (pyLower text).data = none → bareNumber text = some n →
      (extract_all_info text context).quantity =
        if truthyN context.quantity then context.quantity else some n) ∧
    (specSearch (pyLower text).data = none →
      (extract_all_info text context).specification = context.specification) ∧
    (∀ g, gradeScan (pyLower text).data GRADE_PREMIUMS_v2 none = some g →
      (extract_all_info text context).grade = some g) ∧
    (gradeScan (pyLower text).data GRADE_PREMIUMS_v2 none = none →
      (extract_all_info text context).grade = context.grade) ∧
    (truthyS context.city = true →
      (extract_all_info text context).city =
        if cityPatternsHit "mumbai".data (pyLower text).data then some "mumbai"
        else context.city) ∧
    (truthyS context.city = false →
      (extract_all_info text context).city =
        (match cityLoop (pyLower text).data DELIVERY_COSTS_v2 none with
         | some d => some d
         | none => context.city)) := by
  refine ⟨?_, ?_, ?_, ?_, ?_, ?_, ?_, ?_, ?_, ?_⟩
  · intro p hp
    unfold extract_all_info extractProduct
    dsimp only
    rw [hp]
  · intro hp
    unfold extract_all_info extractProduct
    dsimp only
    rw [hp]
  · intro n hn hside
    unfold extract_all_info extractQuantity
    dsimp only
    rw [hn]
    cases n with
    | zero =>
      have hb : bareNumber text = none := by
        rcases hside with h0 | hb
        · exact absurd rfl h0
        · exact hb
      simp [truthyN, hb]
    | succ k => simp [truthyN]
  · intro hn hb
    unfold extract_all_info extractQuantity
    dsimp only
    rw [hn, hb]
    cases truthyN context.quantity <;> simp
  · intro n hn hb
    unfold extract_all_info extractQuantity
    dsimp only
    rw [hn, hb]
    cases hq : truthyN context.quantity <;> simp [hq]
  · intro hs
    unfold extract_all_info extractSpecification
    dsimp only
    rw [hs]
  · intro g hg
    unfold extract_all_info
    dsimp only
    exact gradeScan_detect_some _ _ g context.grade hg
  · intro hg
    unfold extract_all_info
    dsimp only
    exact gradeScan_detect_none _ _ context.grade hg
  · intro hc
    unfold extract_all_info
    dsimp only
    have hek : truthyS (some "mumbai") = true := by decide
    cases hhit : cityPatternsHit "mumbai".data (pyLower text).data with
    | true => simp [DELIVERY_COSTS_v2, cityLoop, hhit, hek]
    | false => simp [DELIVERY_COSTS_v2, cityLoop, hhit, hc]
  · intro hc
    unfold extract_all_info
    dsimp only
    exact cityLoop_untruthy _ DELIVERY_COSTS_v2 (by decide) context.city hc

/-- C5 witness: `C5_extractor_merge` at the counterexample input: with
prior city "delhi" and the utterance "deliver to pune" (which does not
mention mumbai), the city slot keeps "delhi". -/
theorem C5_extractor_merge_witness :
    (extract_all_info "deliver to pune" ⟨none, none, none, none, some "delhi"⟩).city =
      some "delhi" := by
  have h := (C5_extractor_merge "deliver to pune"
    ⟨none, none, none, none, some "delhi"⟩).2.2.2.2.2.2.2.2.1 (by decide)
  rw [h]
  decide

/-- C6: the extractor is idempotent — re-extracting the same utterance
from the context it just produced changes nothing — and a no-information
utterance such as "ok" (no product, quantity, specification, grade or
city detected) returns the context unchanged. -/
theorem C6_extract_idempotent :
    (∀ (text : String) (context : Ctx),
      extract_all_info text (extract_all_info text context) =
        extract_all_info text context) ∧
    (∀ context : Ctx, extract_all_info "ok" context = context) := by
  constructor
  · intro text context
    unfold extract_all_info
    dsimp only
    rw [extractProduct_idem, extractQuantity_idem, extractSpecification_idem,
      gradeScan_idem, cityLoop_idem _ DELIVERY_COSTS_v2 (by decide)]
  · intro context
    have hfb : find_best_match "ok" productOptions = none := by decide
    have hqp : extractQuantityPatterns (pyLower "ok").data = none := by decide
    have hbn : bareNumber "ok" = none := by decide
    have hsp : specSearch (pyLower "ok").data = none := by decide
    have hgr : gradeScan (pyLower "ok").data GRADE_PREMIUMS_v2 none = none := by decide
    have hct : cityLoop (pyLower "ok").data DELIVERY_COSTS_v2 none = none := by decide
    cases context with
    | mk p s q g c =>
      unfold extract_all_info extractProduct extractQuantity extractSpecification
      dsimp only
      rw [hfb, hqp, hbn, hsp]
      rw [gradeScan_detect_none _ _ _ hgr]
      have hcity : cityLoop (pyLower "ok").data DELIVERY_COSTS_v2 c = c := by
        cases c with
        | none => exact hct
        | some cs =>
          cases hcs : truthyS (some cs) with
          | true =>
            have hhit : cityPatternsHit "mumbai".data (pyLower "ok").data = false := by
              decide
            simp [DELIVERY_COSTS_v2, cityLoop, hhit, hcs]
          | false =>
            rw [cityLoop_untruthy _ DELIVERY_COSTS_v2 (by decide) (some cs) hcs, hct]
      rw [hcity]
      simp

/-- C9: in the per-turn step, an utterance classified as a greeting gets
the static welcome reply and clears every Order-Context field to `None`;
an utterance classified as a help request (and not as a greeting, which is
tested first) gets the static guidance reply and leaves the Order Context
exactly as it was.  (The v2 controller has no thanks class: no utterance
is ever classified as thanks, so that part of the claim is vacuous.) -/
theorem C9_greeting_help_frame (prompt : String) (context : Ctx) :
    (is_greeting prompt = true →
      processTurn prompt context = (.greeting, emptyCtx)) ∧
    (is_greeting prompt = false → helpRequested prompt = true →
      processTurn prompt context = (.helpText, context)) := by
  constructor
  · intro h
    simp [processTurn, h]
  · intro h1 h2
    simp [processTurn, h1, h2]

/-- C9 witness: `C9_greeting_help_frame` on "hello" (greeting: context
⟨neem, 5%, 30, food, pune⟩ is cleared) and on "help" (context kept). -/
theorem C9_greeting_help_frame_witness :
    processTurn "hello" ⟨some "neem", some "5%", some 30, some "food", some "pune"⟩ =
      (.greeting, emptyCtx) ∧
    processTurn "help" ⟨some "neem", some "5%", some 30, some "food", some "pune"⟩ =
      (.helpText, ⟨some "neem", some "5%", some 30, some "food", some "pune"⟩) :=
  ⟨(C9_greeting_help_frame "hello" _).1 (by decide),
   (C9_greeting_help_frame "help" _).2 (by decide) (by decide)⟩

end ChatBot
